import Mathlib

/-!
Shallow embedding of `src/owl/camel/toolkits/elasticsearch_toolkit.py`.

The file defines the `ElasticsearchToolkit` adapter: its constructor
(argument / environment-variable resolution and the single call to the
`Elasticsearch` client class), the four exposed operations (`search`,
`index_document`, `cluster_health`, `cluster_stats`) and `get_tools`.
The external Elasticsearch client is an opaque collaborator, embedded as a
record of call behaviours; a call into the Python client either returns a
response dict or raises an exception, embedded as `PyResult`.  Python
methods never assign to `self`, so each method is embedded as a function
returning its result together with the post-state of the receiver.
-/

/-- JSON-like values: the payloads exchanged with the Elasticsearch client. -/
inductive JsonValue : Type where
  | null : JsonValue
  | bool : Bool → JsonValue
  | num : Int → JsonValue
  | str : String → JsonValue
  | arr : List JsonValue → JsonValue
  | obj : List (String × JsonValue) → JsonValue

/-- A Python dict with string keys, as an ordered association list. -/
abbrev JsonObj : Type := List (String × JsonValue)

/-- Outcome of one call into the Python client: a returned value, or a raised
exception carrying its message string (the value of `str(e)` for the caught
exception `e`). -/
inductive PyResult (α : Type) : Type where
  | ok : α → PyResult α
  | exn : String → PyResult α

/-- The `client.cluster` sub-API used by the toolkit: `cluster.health()` and
`cluster.stats()`, both taking no arguments. -/
structure ESCluster : Type where
  health : Unit → PyResult JsonObj
  stats : Unit → PyResult JsonObj

/-- Behaviour of the external `Elasticsearch` client collaborator, one field
per client call the toolkit makes: `search(index=..., body=...)`,
`index(index=..., id=..., body=...)` and the `cluster` sub-API. -/
structure ESClient : Type where
  search : String → JsonObj → PyResult JsonObj
  index : String → Option String → JsonObj → PyResult JsonObj
  cluster : ESCluster

/-- The three process environment variables the constructor reads;
`none` means the variable is unset. -/
structure Env : Type where
  elasticsearchHost : Option String
  elasticsearchUsername : Option String
  elasticsearchPassword : Option String

/-- Python `hosts or [os.getenv("ELASTICSEARCH_HOST", "https://localhost:9200")]`:
`None` and the empty list are falsy, so they fall back to the one-element list
built from the environment variable, which itself defaults to the built-in URL. -/
def resolveHosts (env : Env) (hosts : Option (List String)) : List String :=
  match hosts with
  | some (h :: hs) => h :: hs
  | _ => [env.elasticsearchHost.getD "https://localhost:9200"]

/-- Python `username or os.getenv("ELASTICSEARCH_USERNAME")`: `None` and the
empty string are falsy, so they fall back to the environment variable. -/
def resolveUsername (env : Env) (username : Option String) : Option String :=
  match username with
  | some u => if u = "" then env.elasticsearchUsername else some u
  | none => env.elasticsearchUsername

/-- Python `password or os.getenv("ELASTICSEARCH_PASSWORD")`, with the same
falsiness rule as `resolveUsername`. -/
def resolvePassword (env : Env) (password : Option String) : Option String :=
  match password with
  | some p => if p = "" then env.elasticsearchPassword else some p
  | none => env.elasticsearchPassword

/-- The call the constructor makes to the `Elasticsearch` client class:
the positional `hosts` argument and the `http_auth` keyword argument.
`http_auth = none` would mean the keyword was omitted at the call site;
`some (u, p)` means the pair `(u, p)` was passed. -/
structure ESCtorCall : Type where
  hosts : List String
  http_auth : Option (Option String × Option String)
  deriving DecidableEq

/-- The one `Elasticsearch(self.hosts, http_auth=(self.username, self.password))`
call made by `__init__`, after resolving the three configuration fields. -/
def elasticsearchCtorCall (env : Env) (hosts : Option (List String))
    (username password : Option String) : ESCtorCall :=
  ⟨resolveHosts env hosts,
    some (resolveUsername env username, resolvePassword env password)⟩

/-- The adapter state: the three resolved configuration fields and the single
client handle, all assigned in `__init__` and never reassigned. -/
structure ElasticsearchToolkit : Type where
  hosts : List String
  username : Option String
  password : Option String
  client : ESClient

/-- `ElasticsearchToolkit.__init__`: resolve the three fields from arguments
with environment fallbacks, then construct the single client handle.  The
`Elasticsearch` class itself is opaque, embedded as a factory from the
recorded constructor call to a client behaviour. -/
def ElasticsearchToolkit.init (elasticsearchClass : ESCtorCall → ESClient)
    (env : Env) (hosts : Option (List String))
    (username password : Option String) : ElasticsearchToolkit :=
  ⟨resolveHosts env hosts, resolveUsername env username,
    resolvePassword env password,
    elasticsearchClass (elasticsearchCtorCall env hosts username password)⟩

/-- `ElasticsearchToolkit.search`: forward `index` and `query` to
`self.client.search`; return the response as-is on success, and the
single-key error dict built from `str(e)` when the client raises. -/
def ElasticsearchToolkit.search (tk : ElasticsearchToolkit) (index : String)
    (query : JsonObj) : JsonObj × ElasticsearchToolkit :=
  match tk.client.search index query with
  | PyResult.ok response => (response, tk)
  | PyResult.exn e => ([("error", JsonValue.str e)], tk)

/-- `ElasticsearchToolkit.index_document`: forward `index`, `doc_id` and
`document` to `self.client.index`; same success / failure contract as
`search`. -/
def ElasticsearchToolkit.index_document (tk : ElasticsearchToolkit)
    (index : String) (document : JsonObj) (doc_id : Option String) :
    JsonObj × ElasticsearchToolkit :=
  match tk.client.index index doc_id document with
  | PyResult.ok response => (response, tk)
  | PyResult.exn e => ([("error", JsonValue.str e)], tk)

/-- `ElasticsearchToolkit.cluster_health`: forward to
`self.client.cluster.health()`; same success / failure contract. -/
def ElasticsearchToolkit.cluster_health (tk : ElasticsearchToolkit) :
    JsonObj × ElasticsearchToolkit :=
  match tk.client.cluster.health () with
  | PyResult.ok response => (response, tk)
  | PyResult.exn e => ([("error", JsonValue.str e)], tk)

/-- `ElasticsearchToolkit.cluster_stats`: forward to
`self.client.cluster.stats()`; same success / failure contract. -/
def ElasticsearchToolkit.cluster_stats (tk : ElasticsearchToolkit) :
    JsonObj × ElasticsearchToolkit :=
  match tk.client.cluster.stats () with
  | PyResult.ok response => (response, tk)
  | PyResult.exn e => ([("error", JsonValue.str e)], tk)

/-- A `FunctionTool` wraps one bound method; the observable metadata modelled
here is the wrapped callable's name (its Python `__name__`). -/
structure FunctionTool : Type where
  name : String
  deriving DecidableEq

/-- `ElasticsearchToolkit.get_tools`: the fixed four-element descriptor list,
one `FunctionTool` per exposed operation, in source order. -/
def ElasticsearchToolkit.get_tools (tk : ElasticsearchToolkit) :
    List FunctionTool × ElasticsearchToolkit :=
  ([⟨"search"⟩, ⟨"index_document"⟩, ⟨"cluster_health"⟩, ⟨"cluster_stats"⟩], tk)

/-- A client stub whose every call raises an exception with message `msg`. -/
def raisingClient (msg : String) : ESClient :=
  ⟨fun _ _ => PyResult.exn msg, fun _ _ _ => PyResult.exn msg,
    ⟨fun _ => PyResult.exn msg, fun _ => PyResult.exn msg⟩⟩

/-- A client stub whose every call succeeds with the fixed response `r`. -/
def constClient (r : JsonObj) : ESClient :=
  ⟨fun _ _ => PyResult.ok r, fun _ _ _ => PyResult.ok r,
    ⟨fun _ => PyResult.ok r, fun _ => PyResult.ok r⟩⟩

/-- A client stub whose `search` and `index` calls echo the request body. -/
def echoClient : ESClient :=
  ⟨fun _ q => PyResult.ok q, fun _ _ d => PyResult.ok d,
    ⟨fun _ => PyResult.ok [], fun _ => PyResult.ok []⟩⟩

/-- An environment with none of the three variables set. -/
def emptyEnv : Env := ⟨none, none, none⟩

/-- An adapter instance built over a stub client, constructed with explicit
`hosts=["http://localhost:9200"]` and no credentials, as in the spec's
scenarios. -/
def stubToolkit (c : ESClient) : ElasticsearchToolkit :=
  ElasticsearchToolkit.init (fun _ => c) emptyEnv
    (some ["http://localhost:9200"]) none none

/-- The query body of the spec's scenarios. -/
def matchAllQuery : JsonObj :=
  [("query", JsonValue.obj [("match_all", JsonValue.obj [])])]

/-- The stub response of the spec's scenarios. -/
def hitsResponse : JsonObj := [("hits", JsonValue.obj [("total", JsonValue.num 0)])]

/-- First document body for the repeated-indexing scenario. -/
def doc1 : JsonObj := [("v", JsonValue.num 1)]

/-- Second, differing document body for the repeated-indexing scenario. -/
def doc2 : JsonObj := [("v", JsonValue.num 2)]

/-- An environment with all three variables set, for precedence checks. -/
def setEnv : Env :=
  ⟨some "http://envhost:9200", some "envuser", some "envpass"⟩

/-- C1: for every operation among search, index_document, cluster_health and
cluster_stats, every input, and every client behaviour, the returned value is
a mapping that is either the client's native response or the single-key error
mapping; the embedded operations are total functions, so no exception
propagates past the adapter boundary. -/
theorem operations_total (tk : ElasticsearchToolkit) (i : String)
    (q d : JsonObj) (docid : Option String) :
    ((∃ r, tk.client.search i q = PyResult.ok r ∧ (tk.search i q).1 = r) ∨
      (∃ e, tk.client.search i q = PyResult.exn e ∧
        (tk.search i q).1 = [("error", JsonValue.str e)])) ∧
    ((∃ r, tk.client.index i docid d = PyResult.ok r ∧
        (tk.index_document i d docid).1 = r) ∨
      (∃ e, tk.client.index i docid d = PyResult.exn e ∧
        (tk.index_document i d docid).1 = [("error", JsonValue.str e)])) ∧
    ((∃ r, tk.client.cluster.health () = PyResult.ok r ∧
        tk.cluster_health.1 = r) ∨
      (∃ e, tk.client.cluster.health () = PyResult.exn e ∧
        tk.cluster_health.1 = [("error", JsonValue.str e)])) ∧
    ((∃ r, tk.client.cluster.stats () = PyResult.ok r ∧
        tk.cluster_stats.1 = r) ∨
      (∃ e, tk.client.cluster.stats () = PyResult.exn e ∧
        tk.cluster_stats.1 = [("error", JsonValue.str e)])) := by
  refine ⟨?_, ?_, ?_, ?_⟩
  · cases h : tk.client.search i q with
    | ok r => exact Or.inl ⟨r, rfl, by simp [ElasticsearchToolkit.search, h]⟩
    | exn e => exact Or.inr ⟨e, rfl, by simp [ElasticsearchToolkit.search, h]⟩
  · cases h : tk.client.index i docid d with
    | ok r =>
        exact Or.inl ⟨r, rfl, by simp [ElasticsearchToolkit.index_document, h]⟩
    | exn e =>
        exact Or.inr ⟨e, rfl, by simp [ElasticsearchToolkit.index_document, h]⟩
  · cases h : tk.client.cluster.health () with
    | ok r =>
        exact Or.inl ⟨r, rfl, by simp [ElasticsearchToolkit.cluster_health, h]⟩
    | exn e =>
        exact Or.inr ⟨e, rfl, by simp [ElasticsearchToolkit.cluster_health, h]⟩
  · cases h : tk.client.cluster.stats () with
    | ok r =>
        exact Or.inl ⟨r, rfl, by simp [ElasticsearchToolkit.cluster_stats, h]⟩
    | exn e =>
        exact Or.inr ⟨e, rfl, by simp [ElasticsearchToolkit.cluster_stats, h]⟩

/-- C2: whenever the client's search call raises an exception with message
`e`, `search` returns a mapping with exactly one key, `"error"`, whose value
is the string `e`, and no exception escapes. -/
theorem search_error_mapping (tk : ElasticsearchToolkit) (i : String)
    (q : JsonObj) (e : String)
    (h : tk.client.search i q = PyResult.exn e) :
    (tk.search i q).1 = [("error", JsonValue.str e)] ∧
    (tk.search i q).1.length = 1 := by
  simp [ElasticsearchToolkit.search, h]

/-- Witness for C2: a client stub that raises ConnectionError with message
`"timeout"` makes `search("docs", match_all)` return the error mapping with
value `"timeout"`. -/
theorem search_error_mapping_witness :
    (stubToolkit (raisingClient "timeout")).client.search "docs" matchAllQuery
        = PyResult.exn "timeout" ∧
    ((stubToolkit (raisingClient "timeout")).search "docs" matchAllQuery).1
        = [("error", JsonValue.str "timeout")] :=
  ⟨rfl,
    (search_error_mapping (stubToolkit (raisingClient "timeout")) "docs"
      matchAllQuery "timeout" rfl).1⟩

/-- C3: whenever the client's search call succeeds with response `r`,
`search` returns exactly `r`, unmodified. -/
theorem search_passthrough (tk : ElasticsearchToolkit) (i : String)
    (q r : JsonObj) (h : tk.client.search i q = PyResult.ok r) :
    (tk.search i q).1 = r := by
  simp [ElasticsearchToolkit.search, h]

/-- Witness for C3: against a stub returning the hits-total-0 response,
`search("docs", match_all)` returns that response exactly. -/
theorem search_passthrough_witness :
    (stubToolkit (constClient hitsResponse)).client.search "docs" matchAllQuery
        = PyResult.ok hitsResponse ∧
    ((stubToolkit (constClient hitsResponse)).search "docs" matchAllQuery).1
        = hitsResponse :=
  ⟨rfl,
    search_passthrough (stubToolkit (constClient hitsResponse)) "docs"
      matchAllQuery hitsResponse rfl⟩

/-- C4: `cluster_health` and `cluster_stats` take no arguments beyond the
receiver and, for every client behaviour, return the client's response
verbatim on success and the single-key error mapping on failure. -/
theorem cluster_ops_contract (tk : ElasticsearchToolkit) (r1 r2 : JsonObj)
    (e1 e2 : String) :
    (tk.client.cluster.health () = PyResult.ok r1 →
      tk.cluster_health.1 = r1) ∧
    (tk.client.cluster.health () = PyResult.exn e1 →
      tk.cluster_health.1 = [("error", JsonValue.str e1)]) ∧
    (tk.client.cluster.stats () = PyResult.ok r2 →
      tk.cluster_stats.1 = r2) ∧
    (tk.client.cluster.stats () = PyResult.exn e2 →
      tk.cluster_stats.1 = [("error", JsonValue.str e2)]) := by
  refine ⟨fun h => ?_, fun h => ?_, fun h => ?_, fun h => ?_⟩
  · simp [ElasticsearchToolkit.cluster_health, h]
  · simp [ElasticsearchToolkit.cluster_health, h]
  · simp [ElasticsearchToolkit.cluster_stats, h]
  · simp [ElasticsearchToolkit.cluster_stats, h]

/-- Witness for C4: a succeeding stub makes `cluster_health` return its
response verbatim, and a raising stub makes `cluster_stats` return the error
mapping. -/
theorem cluster_ops_contract_witness :
    (stubToolkit (constClient hitsResponse)).cluster_health.1 = hitsResponse ∧
    (stubToolkit (raisingClient "down")).cluster_stats.1
        = [("error", JsonValue.str "down")] :=
  ⟨(cluster_ops_contract (stubToolkit (constClient hitsResponse))
      hitsResponse hitsResponse "x" "x").1 rfl,
    ((cluster_ops_contract (stubToolkit (raisingClient "down"))
      hitsResponse hitsResponse "down" "down").2.2.2) rfl⟩

/-- C5: two successive `index_document` calls with the same `doc_id` and
differing bodies each forward their exact arguments to the client and each
return the client's native response on success; the adapter performs no
deduplication or idempotency logic between the calls. -/
theorem index_document_no_dedup (tk : ElasticsearchToolkit) (i : String)
    (d1 d2 : JsonObj) (docid : String) (r1 r2 : JsonObj)
    (_hne : d1 ≠ d2)
    (h1 : tk.client.index i (some docid) d1 = PyResult.ok r1)
    (h2 : tk.client.index i (some docid) d2 = PyResult.ok r2) :
    (tk.index_document i d1 (some docid)).1 = r1 ∧
    ((tk.index_document i d1 (some docid)).2.index_document
        i d2 (some docid)).1 = r2 := by
  have hframe : (tk.index_document i d1 (some docid)).2 = tk := by
    simp [ElasticsearchToolkit.index_document, h1]
  refine ⟨?_, ?_⟩
  · simp [ElasticsearchToolkit.index_document, h1]
  · rw [hframe]
    simp [ElasticsearchToolkit.index_document, h2]

/-- Witness for C5: against an echoing stub, two successive calls with
`doc_id = "id1"` and differing bodies both return the client's native
responses. -/
theorem index_document_no_dedup_witness :
    doc1 ≠ doc2 ∧
    ((stubToolkit echoClient).index_document "docs" doc1 (some "id1")).1
        = doc1 ∧
    (((stubToolkit echoClient).index_document "docs" doc1
        (some "id1")).2.index_document "docs" doc2 (some "id1")).1 = doc2 :=
  ⟨by simp [doc1, doc2],
    index_document_no_dedup (stubToolkit echoClient) "docs" doc1 doc2 "id1"
      doc1 doc2 (by simp [doc1, doc2]) rfl rfl⟩

/-- C6: `get_tools` always returns exactly 4 descriptors carrying the stable
names search, index_document, cluster_health, cluster_stats in that order,
for every adapter instance, and leaves the adapter state unchanged. -/
theorem get_tools_fixed (tk : ElasticsearchToolkit) :
    tk.get_tools.1.length = 4 ∧
    tk.get_tools.1.map FunctionTool.name
        = ["search", "index_document", "cluster_health", "cluster_stats"] ∧
    tk.get_tools.2 = tk :=
  ⟨rfl, rfl, rfl⟩

/-- C7: construction with no arguments while all three environment variables
are unset resolves hosts to the single-element default list and username and
password to None. -/
theorem init_defaults (es : ESCtorCall → ESClient) :
    (ElasticsearchToolkit.init es emptyEnv none none none).hosts
        = ["https://localhost:9200"] ∧
    (ElasticsearchToolkit.init es emptyEnv none none none).username = none ∧
    (ElasticsearchToolkit.init es emptyEnv none none none).password = none :=
  ⟨rfl, rfl, rfl⟩

/-- C8: at construction a provided non-empty argument takes precedence over
the corresponding environment variable for each of hosts, username and
password; an absent or empty argument falls back to the environment variable;
and hosts falls back further to the built-in default URL when both are
absent. -/
theorem init_precedence (es : ESCtorCall → ESClient) (env : Env)
    (hs : List String) (hns : hs ≠ []) (u : String) (hu : u ≠ "")
    (p : String) (hp : p ≠ "") :
    ((ElasticsearchToolkit.init es env (some hs) (some u) (some p)).hosts = hs ∧
      (ElasticsearchToolkit.init es env (some hs) (some u) (some p)).username
          = some u ∧
      (ElasticsearchToolkit.init es env (some hs) (some u) (some p)).password
          = some p) ∧
    ((ElasticsearchToolkit.init es env none none none).hosts
          = [env.elasticsearchHost.getD "https://localhost:9200"] ∧
      (ElasticsearchToolkit.init es env none none none).username
          = env.elasticsearchUsername ∧
      (ElasticsearchToolkit.init es env none none none).password
          = env.elasticsearchPassword) ∧
    ((ElasticsearchToolkit.init es env (some []) (some "") (some "")).hosts
          = [env.elasticsearchHost.getD "https://localhost:9200"] ∧
      (ElasticsearchToolkit.init es env (some []) (some "") (some "")).username
          = env.elasticsearchUsername ∧
      (ElasticsearchToolkit.init es env (some []) (some "") (some "")).password
          = env.elasticsearchPassword) := by
  refine ⟨⟨?_, ?_, ?_⟩, ⟨rfl, rfl, rfl⟩, ⟨rfl, by simp [ElasticsearchToolkit.init,
    resolveUsername], by simp [ElasticsearchToolkit.init, resolvePassword]⟩⟩
  · cases hs with
    | nil => exact absurd rfl hns
    | cons h t => rfl
  · simp [ElasticsearchToolkit.init, resolveUsername, hu]
  · simp [ElasticsearchToolkit.init, resolvePassword, hp]

/-- Witness for C8: with all three environment variables set, explicit
non-empty arguments win; in particular an explicit hosts list ignores the
ELASTICSEARCH_HOST variable. -/
theorem init_precedence_witness :
    (ElasticsearchToolkit.init (fun _ => constClient []) setEnv
        (some ["http://a:9200"]) (some "alice") (some "secret")).hosts
        = ["http://a:9200"] ∧
    (ElasticsearchToolkit.init (fun _ => constClient []) setEnv
        (some ["http://a:9200"]) (some "alice") (some "secret")).username
        = some "alice" ∧
    (ElasticsearchToolkit.init (fun _ => constClient []) setEnv
        (some ["http://a:9200"]) (some "alice") (some "secret")).password
        = some "secret" :=
  (init_precedence (fun _ => constClient []) setEnv ["http://a:9200"]
    (by decide) "alice" (by decide) "secret" (by decide)).1

/-- C9: every operation leaves the adapter's fields hosts, username, password
and client unchanged, and the client handle is the one the constructor built
from the single recorded Elasticsearch constructor call. -/
theorem operations_frame (tk : ElasticsearchToolkit) (i : String)
    (q d : JsonObj) (docid : Option String) (es : ESCtorCall → ESClient)
    (env : Env) (hargs : Option (List String)) (u p : Option String) :
    (tk.search i q).2 = tk ∧
    (tk.index_document i d docid).2 = tk ∧
    tk.cluster_health.2 = tk ∧
    tk.cluster_stats.2 = tk ∧
    tk.get_tools.2 = tk ∧
    (ElasticsearchToolkit.init es env hargs u p).client
        = es (elasticsearchCtorCall env hargs u p) := by
  refine ⟨?_, ?_, ?_, ?_, rfl, rfl⟩
  · cases h : tk.client.search i q <;> simp [ElasticsearchToolkit.search, h]
  · cases h : tk.client.index i docid d <;>
      simp [ElasticsearchToolkit.index_document, h]
  · cases h : tk.client.cluster.health () <;>
      simp [ElasticsearchToolkit.cluster_health, h]
  · cases h : tk.client.cluster.stats () <;>
      simp [ElasticsearchToolkit.cluster_stats, h]

/-- C10: the constructor always passes the http_auth keyword with the
resolved (username, password) pair to the Elasticsearch client, even when
both resolved values are None. -/
theorem ctor_always_passes_http_auth (env : Env)
    (hosts : Option (List String)) (username password : Option String) :
    (elasticsearchCtorCall env hosts username password).http_auth
        = some (resolveUsername env username, resolvePassword env password) ∧
    (elasticsearchCtorCall emptyEnv none none none).http_auth
        = some (none, none) :=
  ⟨rfl, rfl⟩
